import Mathlib

/-!
# Atomic builtins shim (`app/components/compiler_builtins/atomics.c`)

The C file defines sixty functions, `__sync_<operation>_<bytes>` for fifteen
operations at the widths 1, 2, 4 and 8 bytes.  The body of every one of them
is a single `return` of a call of the function itself with its own
parameters.

Embedding.  Each C function is a Lean function of the same name.  A call is
run with a bound on the call depth (`fuel`): a call made with depth left
enters the body, a call made with none left stops the run and is reported as
`Outcome.pending` together with the memory and the arguments it was made
with.  A call that comes back is reported as `Outcome.returned` with the
returned value and the memory it leaves.  Memory is threaded through every
call explicitly.  A call in a body is resolved as C resolves it, to the
function of that name defined in this translation unit.

Integers of type `int8_t` ... `int64_t` are represented by `Int`; no function
of the file performs arithmetic on them, so no wrap-around is involved and the
results below hold for every integer, in range or not.
-/

namespace Atomics

/-- An address of a memory location. -/
abbrev Addr := Nat

/-- Memory: the integer held by each location. -/
abbrev Mem := Addr → Int

/-- Memory `m` with location `p` holding `v`. -/
def store (m : Mem) (p : Addr) (v : Int) : Mem :=
  fun q => if q = p then v else m q

/-- What a run of a call with bounded call depth ends with: the call returned
`value` and left memory `mem`, or the depth bound was reached while a call with
memory `mem`, pointer `ptr` and operands `args` was still to be executed. -/
inductive Outcome (ρ : Type) (α : Type) where
  | returned (value : ρ) (mem : Mem)
  | pending (mem : Mem) (ptr : Addr) (args : α)

/-- A value returned by one of the exported functions: an integer of the
function's width, or the `bool` of the boolean compare-and-swap. -/
inductive RetVal where
  | int (v : Int)
  | bool (b : Bool)

/-- Outcome of a one-operand function returning an integer, in the common
shape used by `invoke`. -/
def Outcome.word : Outcome Int Int → Outcome RetVal (List Int)
  | .returned v m => .returned (.int v) m
  | .pending m ptr arg => .pending m ptr [arg]

/-- Outcome of a two-operand function returning an integer, in the common
shape used by `invoke`. -/
def Outcome.word2 : Outcome Int (Int × Int) → Outcome RetVal (List Int)
  | .returned v m => .returned (.int v) m
  | .pending m ptr (old, new) => .pending m ptr [old, new]

/-- Outcome of a two-operand function returning a `bool`, in the common shape
used by `invoke`. -/
def Outcome.flag2 : Outcome Bool (Int × Int) → Outcome RetVal (List Int)
  | .returned b m => .returned (.bool b) m
  | .pending m ptr (old, new) => .pending m ptr [old, new]

/-- The four operand widths, named by their size in bytes. -/
inductive Width where
  | w1 | w2 | w4 | w8
  deriving DecidableEq, Fintype

/-- The fifteen operations exported at every width. -/
inductive Family where
  | fetch_and_add
  | fetch_and_sub
  | fetch_and_or
  | fetch_and_and
  | fetch_and_xor
  | fetch_and_nand
  | add_and_fetch
  | sub_and_fetch
  | or_and_fetch
  | and_and_fetch
  | xor_and_fetch
  | nand_and_fetch
  | lock_test_and_set
  | val_compare_and_swap
  | bool_compare_and_swap
  deriving DecidableEq, Fintype

/-- The operands following the pointer: two for the compare-and-swap
functions (`old`, `new`), one for all others (`arg`). -/
def Family.operands : Family → Int → Int → List Int
  | .val_compare_and_swap, a, b => [a, b]
  | .bool_compare_and_swap, a, b => [a, b]
  | _, a, _ => [a]

/-! ## The sixty functions of `atomics.c`, in source order -/

/-- Source function `int8_t __sync_fetch_and_add_1(int8_t *ptr, int8_t arg)`, whose body is
`return __sync_fetch_and_add_1(ptr, arg);`. -/
def __sync_fetch_and_add_1 : Nat → Mem → Addr → Int → Outcome Int Int
  | 0, m, ptr, arg => .pending m ptr arg
  | fuel + 1, m, ptr, arg => __sync_fetch_and_add_1 fuel m ptr arg

/-- Source function `int8_t __sync_fetch_and_sub_1(int8_t *ptr, int8_t arg)`, whose body is
`return __sync_fetch_and_sub_1(ptr, arg);`. -/
def __sync_fetch_and_sub_1 : Nat → Mem → Addr → Int → Outcome Int Int
  | 0, m, ptr, arg => .pending m ptr arg
  | fuel + 1, m, ptr, arg => __sync_fetch_and_sub_1 fuel m ptr arg

/-- Source function `int8_t __sync_fetch_and_or_1(int8_t *ptr, int8_t arg)`, whose body is
`return __sync_fetch_and_or_1(ptr, arg);`. -/
def __sync_fetch_and_or_1 : Nat → Mem → Addr → Int → Outcome Int Int
  | 0, m, ptr, arg => .pending m ptr arg
  | fuel + 1, m, ptr, arg => __sync_fetch_and_or_1 fuel m ptr arg

/-- Source function `int8_t __sync_fetch_and_and_1(int8_t *ptr, int8_t arg)`, whose body is
`return __sync_fetch_and_and_1(ptr, arg);`. -/
def __sync_fetch_and_and_1 : Nat → Mem → Addr → Int → Outcome Int Int
  | 0, m, ptr, arg => .pending m ptr arg
  | fuel + 1, m, ptr, arg => __sync_fetch_and_and_1 fuel m ptr arg

/-- Source function `int8_t __sync_fetch_and_xor_1(int8_t *ptr, int8_t arg)`, whose body is
`return __sync_fetch_and_xor_1(ptr, arg);`. -/
def __sync_fetch_and_xor_1 : Nat → Mem → Addr → Int → Outcome Int Int
  | 0, m, ptr, arg => .pending m ptr arg
  | fuel + 1, m, ptr, arg => __sync_fetch_and_xor_1 fuel m ptr arg

/-- Source function `int8_t __sync_fetch_and_nand_1(int8_t *ptr, int8_t arg)`, whose body is
`return __sync_fetch_and_nand_1(ptr, arg);`. -/
def __sync_fetch_and_nand_1 : Nat → Mem → Addr → Int → Outcome Int Int
  | 0, m, ptr, arg => .pending m ptr arg
  | fuel + 1, m, ptr, arg => __sync_fetch_and_nand_1 fuel m ptr arg

/-- Source function `int8_t __sync_add_and_fetch_1(int8_t *ptr, int8_t arg)`, whose body is
`return __sync_add_and_fetch_1(ptr, arg);`. -/
def __sync_add_and_fetch_1 : Nat → Mem → Addr → Int → Outcome Int Int
  | 0, m, ptr, arg => .pending m ptr arg
  | fuel + 1, m, ptr, arg => __sync_add_and_fetch_1 fuel m ptr arg

/-- Source function `int8_t __sync_sub_and_fetch_1(int8_t *ptr, int8_t arg)`, whose body is
`return __sync_sub_and_fetch_1(ptr, arg);`. -/
def __sync_sub_and_fetch_1 : Nat → Mem → Addr → Int → Outcome Int Int
  | 0, m, ptr, arg => .pending m ptr arg
  | fuel + 1, m, ptr, arg => __sync_sub_and_fetch_1 fuel m ptr arg

/-- Source function `int8_t __sync_or_and_fetch_1(int8_t *ptr, int8_t arg)`, whose body is
`return __sync_or_and_fetch_1(ptr, arg);`. -/
def __sync_or_and_fetch_1 : Nat → Mem → Addr → Int → Outcome Int Int
  | 0, m, ptr, arg => .pending m ptr arg
  | fuel + 1, m, ptr, arg => __sync_or_and_fetch_1 fuel m ptr arg

/-- Source function `int8_t __sync_and_and_fetch_1(int8_t *ptr, int8_t arg)`, whose body is
`return __sync_and_and_fetch_1(ptr, arg);`. -/
def __sync_and_and_fetch_1 : Nat → Mem → Addr → Int → Outcome Int Int
  | 0, m, ptr, arg => .pending m ptr arg
  | fuel + 1, m, ptr, arg => __sync_and_and_fetch_1 fuel m ptr arg

/-- Source function `int8_t __sync_xor_and_fetch_1(int8_t *ptr, int8_t arg)`, whose body is
`return __sync_xor_and_fetch_1(ptr, arg);`. -/
def __sync_xor_and_fetch_1 : Nat → Mem → Addr → Int → Outcome Int Int
  | 0, m, ptr, arg => .pending m ptr arg
  | fuel + 1, m, ptr, arg => __sync_xor_and_fetch_1 fuel m ptr arg

/-- Source function `int8_t __sync_nand_and_fetch_1(int8_t *ptr, int8_t arg)`, whose body is
`return __sync_nand_and_fetch_1(ptr, arg);`. -/
def __sync_nand_and_fetch_1 : Nat → Mem → Addr → Int → Outcome Int Int
  | 0, m, ptr, arg => .pending m ptr arg
  | fuel + 1, m, ptr, arg => __sync_nand_and_fetch_1 fuel m ptr arg

/-- Source function `int8_t __sync_lock_test_and_set_1(int8_t *ptr, int8_t arg)`, whose body is
`return __sync_lock_test_and_set_1(ptr, arg);`. -/
def __sync_lock_test_and_set_1 : Nat → Mem → Addr → Int → Outcome Int Int
  | 0, m, ptr, arg => .pending m ptr arg
  | fuel + 1, m, ptr, arg => __sync_lock_test_and_set_1 fuel m ptr arg

/-- Source function `int8_t __sync_val_compare_and_swap_1(int8_t *ptr, int8_t old, int8_t new)`, whose body is
`return __sync_val_compare_and_swap_1(ptr, old, new);`. -/
def __sync_val_compare_and_swap_1 : Nat → Mem → Addr → Int → Int → Outcome Int (Int × Int)
  | 0, m, ptr, old, new => .pending m ptr (old, new)
  | fuel + 1, m, ptr, old, new => __sync_val_compare_and_swap_1 fuel m ptr old new

/-- Source function `bool __sync_bool_compare_and_swap_1(int8_t *ptr, int8_t old, int8_t new)`, whose body is
`return __sync_bool_compare_and_swap_1(ptr, old, new);`. -/
def __sync_bool_compare_and_swap_1 : Nat → Mem → Addr → Int → Int → Outcome Bool (Int × Int)
  | 0, m, ptr, old, new => .pending m ptr (old, new)
  | fuel + 1, m, ptr, old, new => __sync_bool_compare_and_swap_1 fuel m ptr old new

/-- Source function `int16_t __sync_fetch_and_add_2(int16_t *ptr, int16_t arg)`, whose body is
`return __sync_fetch_and_add_2(ptr, arg);`. -/
def __sync_fetch_and_add_2 : Nat → Mem → Addr → Int → Outcome Int Int
  | 0, m, ptr, arg => .pending m ptr arg
  | fuel + 1, m, ptr, arg => __sync_fetch_and_add_2 fuel m ptr arg

/-- Source function `int16_t __sync_fetch_and_sub_2(int16_t *ptr, int16_t arg)`, whose body is
`return __sync_fetch_and_sub_2(ptr, arg);`. -/
def __sync_fetch_and_sub_2 : Nat → Mem → Addr → Int → Outcome Int Int
  | 0, m, ptr, arg => .pending m ptr arg
  | fuel + 1, m, ptr, arg => __sync_fetch_and_sub_2 fuel m ptr arg

/-- Source function `int16_t __sync_fetch_and_or_2(int16_t *ptr, int16_t arg)`, whose body is
`return __sync_fetch_and_or_2(ptr, arg);`. -/
def __sync_fetch_and_or_2 : Nat → Mem → Addr → Int → Outcome Int Int
  | 0, m, ptr, arg => .pending m ptr arg
  | fuel + 1, m, ptr, arg => __sync_fetch_and_or_2 fuel m ptr arg

/-- Source function `int16_t __sync_fetch_and_and_2(int16_t *ptr, int16_t arg)`, whose body is
`return __sync_fetch_and_and_2(ptr, arg);`. -/
def __sync_fetch_and_and_2 : Nat → Mem → Addr → Int → Outcome Int Int
  | 0, m, ptr, arg => .pending m ptr arg
  | fuel + 1, m, ptr, arg => __sync_fetch_and_and_2 fuel m ptr arg

/-- Source function `int16_t __sync_fetch_and_xor_2(int16_t *ptr, int16_t arg)`, whose body is
`return __sync_fetch_and_xor_2(ptr, arg);`. -/
def __sync_fetch_and_xor_2 : Nat → Mem → Addr → Int → Outcome Int Int
  | 0, m, ptr, arg => .pending m ptr arg
  | fuel + 1, m, ptr, arg => __sync_fetch_and_xor_2 fuel m ptr arg

/-- Source function `int16_t __sync_fetch_and_nand_2(int16_t *ptr, int16_t arg)`, whose body is
`return __sync_fetch_and_nand_2(ptr, arg);`. -/
def __sync_fetch_and_nand_2 : Nat → Mem → Addr → Int → Outcome Int Int
  | 0, m, ptr, arg => .pending m ptr arg
  | fuel + 1, m, ptr, arg => __sync_fetch_and_nand_2 fuel m ptr arg

/-- Source function `int16_t __sync_add_and_fetch_2(int16_t *ptr, int16_t arg)`, whose body is
`return __sync_add_and_fetch_2(ptr, arg);`. -/
def __sync_add_and_fetch_2 : Nat → Mem → Addr → Int → Outcome Int Int
  | 0, m, ptr, arg => .pending m ptr arg
  | fuel + 1, m, ptr, arg => __sync_add_and_fetch_2 fuel m ptr arg

/-- Source function `int16_t __sync_sub_and_fetch_2(int16_t *ptr, int16_t arg)`, whose body is
`return __sync_sub_and_fetch_2(ptr, arg);`. -/
def __sync_sub_and_fetch_2 : Nat → Mem → Addr → Int → Outcome Int Int
  | 0, m, ptr, arg => .pending m ptr arg
  | fuel + 1, m, ptr, arg => __sync_sub_and_fetch_2 fuel m ptr arg

/-- Source function `int16_t __sync_or_and_fetch_2(int16_t *ptr, int16_t arg)`, whose body is
`return __sync_or_and_fetch_2(ptr, arg);`. -/
def __sync_or_and_fetch_2 : Nat → Mem → Addr → Int → Outcome Int Int
  | 0, m, ptr, arg => .pending m ptr arg
  | fuel + 1, m, ptr, arg => __sync_or_and_fetch_2 fuel m ptr arg

/-- Source function `int16_t __sync_and_and_fetch_2(int16_t *ptr, int16_t arg)`, whose body is
`return __sync_and_and_fetch_2(ptr, arg);`. -/
def __sync_and_and_fetch_2 : Nat → Mem → Addr → Int → Outcome Int Int
  | 0, m, ptr, arg => .pending m ptr arg
  | fuel + 1, m, ptr, arg => __sync_and_and_fetch_2 fuel m ptr arg

/-- Source function `int16_t __sync_xor_and_fetch_2(int16_t *ptr, int16_t arg)`, whose body is
`return __sync_xor_and_fetch_2(ptr, arg);`. -/
def __sync_xor_and_fetch_2 : Nat → Mem → Addr → Int → Outcome Int Int
  | 0, m, ptr, arg => .pending m ptr arg
  | fuel + 1, m, ptr, arg => __sync_xor_and_fetch_2 fuel m ptr arg

/-- Source function `int16_t __sync_nand_and_fetch_2(int16_t *ptr, int16_t arg)`, whose body is
`return __sync_nand_and_fetch_2(ptr, arg);`. -/
def __sync_nand_and_fetch_2 : Nat → Mem → Addr → Int → Outcome Int Int
  | 0, m, ptr, arg => .pending m ptr arg
  | fuel + 1, m, ptr, arg => __sync_nand_and_fetch_2 fuel m ptr arg

/-- Source function `int16_t __sync_lock_test_and_set_2(int16_t *ptr, int16_t arg)`, whose body is
`return __sync_lock_test_and_set_2(ptr, arg);`. -/
def __sync_lock_test_and_set_2 : Nat → Mem → Addr → Int → Outcome Int Int
  | 0, m, ptr, arg => .pending m ptr arg
  | fuel + 1, m, ptr, arg => __sync_lock_test_and_set_2 fuel m ptr arg

/-- Source function `int16_t __sync_val_compare_and_swap_2(int16_t *ptr, int16_t old, int16_t new)`, whose body is
`return __sync_val_compare_and_swap_2(ptr, old, new);`. -/
def __sync_val_compare_and_swap_2 : Nat → Mem → Addr → Int → Int → Outcome Int (Int × Int)
  | 0, m, ptr, old, new => .pending m ptr (old, new)
  | fuel + 1, m, ptr, old, new => __sync_val_compare_and_swap_2 fuel m ptr old new

/-- Source function `bool __sync_bool_compare_and_swap_2(int16_t *ptr, int16_t old, int16_t new)`, whose body is
`return __sync_bool_compare_and_swap_2(ptr, old, new);`. -/
def __sync_bool_compare_and_swap_2 : Nat → Mem → Addr → Int → Int → Outcome Bool (Int × Int)
  | 0, m, ptr, old, new => .pending m ptr (old, new)
  | fuel + 1, m, ptr, old, new => __sync_bool_compare_and_swap_2 fuel m ptr old new

/-- Source function `int32_t __sync_fetch_and_add_4(int32_t *ptr, int32_t arg)`, whose body is
`return __sync_fetch_and_add_4(ptr, arg);`. -/
def __sync_fetch_and_add_4 : Nat → Mem → Addr → Int → Outcome Int Int
  | 0, m, ptr, arg => .pending m ptr arg
  | fuel + 1, m, ptr, arg => __sync_fetch_and_add_4 fuel m ptr arg

/-- Source function `int32_t __sync_fetch_and_sub_4(int32_t *ptr, int32_t arg)`, whose body is
`return __sync_fetch_and_sub_4(ptr, arg);`. -/
def __sync_fetch_and_sub_4 : Nat → Mem → Addr → Int → Outcome Int Int
  | 0, m, ptr, arg => .pending m ptr arg
  | fuel + 1, m, ptr, arg => __sync_fetch_and_sub_4 fuel m ptr arg

/-- Source function `int32_t __sync_fetch_and_or_4(int32_t *ptr, int32_t arg)`, whose body is
`return __sync_fetch_and_or_4(ptr, arg);`. -/
def __sync_fetch_and_or_4 : Nat → Mem → Addr → Int → Outcome Int Int
  | 0, m, ptr, arg => .pending m ptr arg
  | fuel + 1, m, ptr, arg => __sync_fetch_and_or_4 fuel m ptr arg

/-- Source function `int32_t __sync_fetch_and_and_4(int32_t *ptr, int32_t arg)`, whose body is
`return __sync_fetch_and_and_4(ptr, arg);`. -/
def __sync_fetch_and_and_4 : Nat → Mem → Addr → Int → Outcome Int Int
  | 0, m, ptr, arg => .pending m ptr arg
  | fuel + 1, m, ptr, arg => __sync_fetch_and_and_4 fuel m ptr arg

/-- Source function `int32_t __sync_fetch_and_xor_4(int32_t *ptr, int32_t arg)`, whose body is
`return __sync_fetch_and_xor_4(ptr, arg);`. -/
def __sync_fetch_and_xor_4 : Nat → Mem → Addr → Int → Outcome Int Int
  | 0, m, ptr, arg => .pending m ptr arg
  | fuel + 1, m, ptr, arg => __sync_fetch_and_xor_4 fuel m ptr arg

/-- Source function `int32_t __sync_fetch_and_nand_4(int32_t *ptr, int32_t arg)`, whose body is
`return __sync_fetch_and_nand_4(ptr, arg);`. -/
def __sync_fetch_and_nand_4 : Nat → Mem → Addr → Int → Outcome Int Int
  | 0, m, ptr, arg => .pending m ptr arg
  | fuel + 1, m, ptr, arg => __sync_fetch_and_nand_4 fuel m ptr arg

/-- Source function `int32_t __sync_add_and_fetch_4(int32_t *ptr, int32_t arg)`, whose body is
`return __sync_add_and_fetch_4(ptr, arg);`. -/
def __sync_add_and_fetch_4 : Nat → Mem → Addr → Int → Outcome Int Int
  | 0, m, ptr, arg => .pending m ptr arg
  | fuel + 1, m, ptr, arg => __sync_add_and_fetch_4 fuel m ptr arg

/-- Source function `int32_t __sync_sub_and_fetch_4(int32_t *ptr, int32_t arg)`, whose body is
`return __sync_sub_and_fetch_4(ptr, arg);`. -/
def __sync_sub_and_fetch_4 : Nat → Mem → Addr → Int → Outcome Int Int
  | 0, m, ptr, arg => .pending m ptr arg
  | fuel + 1, m, ptr, arg => __sync_sub_and_fetch_4 fuel m ptr arg

/-- Source function `int32_t __sync_or_and_fetch_4(int32_t *ptr, int32_t arg)`, whose body is
`return __sync_or_and_fetch_4(ptr, arg);`. -/
def __sync_or_and_fetch_4 : Nat → Mem → Addr → Int → Outcome Int Int
  | 0, m, ptr, arg => .pending m ptr arg
  | fuel + 1, m, ptr, arg => __sync_or_and_fetch_4 fuel m ptr arg

/-- Source function `int32_t __sync_and_and_fetch_4(int32_t *ptr, int32_t arg)`, whose body is
`return __sync_and_and_fetch_4(ptr, arg);`. -/
def __sync_and_and_fetch_4 : Nat → Mem → Addr → Int → Outcome Int Int
  | 0, m, ptr, arg => .pending m ptr arg
  | fuel + 1, m, ptr, arg => __sync_and_and_fetch_4 fuel m ptr arg

/-- Source function `int32_t __sync_xor_and_fetch_4(int32_t *ptr, int32_t arg)`, whose body is
`return __sync_xor_and_fetch_4(ptr, arg);`. -/
def __sync_xor_and_fetch_4 : Nat → Mem → Addr → Int → Outcome Int Int
  | 0, m, ptr, arg => .pending m ptr arg
  | fuel + 1, m, ptr, arg => __sync_xor_and_fetch_4 fuel m ptr arg

/-- Source function `int32_t __sync_nand_and_fetch_4(int32_t *ptr, int32_t arg)`, whose body is
`return __sync_nand_and_fetch_4(ptr, arg);`. -/
def __sync_nand_and_fetch_4 : Nat → Mem → Addr → Int → Outcome Int Int
  | 0, m, ptr, arg => .pending m ptr arg
  | fuel + 1, m, ptr, arg => __sync_nand_and_fetch_4 fuel m ptr arg

/-- Source function `int32_t __sync_lock_test_and_set_4(int32_t *ptr, int32_t arg)`, whose body is
`return __sync_lock_test_and_set_4(ptr, arg);`. -/
def __sync_lock_test_and_set_4 : Nat → Mem → Addr → Int → Outcome Int Int
  | 0, m, ptr, arg => .pending m ptr arg
  | fuel + 1, m, ptr, arg => __sync_lock_test_and_set_4 fuel m ptr arg

/-- Source function `int32_t __sync_val_compare_and_swap_4(int32_t *ptr, int32_t old, int32_t new)`, whose body is
`return __sync_val_compare_and_swap_4(ptr, old, new);`. -/
def __sync_val_compare_and_swap_4 : Nat → Mem → Addr → Int → Int → Outcome Int (Int × Int)
  | 0, m, ptr, old, new => .pending m ptr (old, new)
  | fuel + 1, m, ptr, old, new => __sync_val_compare_and_swap_4 fuel m ptr old new

/-- Source function `bool __sync_bool_compare_and_swap_4(int32_t *ptr, int32_t old, int32_t new)`, whose body is
`return __sync_bool_compare_and_swap_4(ptr, old, new);`. -/
def __sync_bool_compare_and_swap_4 : Nat → Mem → Addr → Int → Int → Outcome Bool (Int × Int)
  | 0, m, ptr, old, new => .pending m ptr (old, new)
  | fuel + 1, m, ptr, old, new => __sync_bool_compare_and_swap_4 fuel m ptr old new

/-- Source function `int64_t __sync_fetch_and_add_8(int64_t *ptr, int64_t arg)`, whose body is
`return __sync_fetch_and_add_8(ptr, arg);`. -/
def __sync_fetch_and_add_8 : Nat → Mem → Addr → Int → Outcome Int Int
  | 0, m, ptr, arg => .pending m ptr arg
  | fuel + 1, m, ptr, arg => __sync_fetch_and_add_8 fuel m ptr arg

/-- Source function `int64_t __sync_fetch_and_sub_8(int64_t *ptr, int64_t arg)`, whose body is
`return __sync_fetch_and_sub_8(ptr, arg);`. -/
def __sync_fetch_and_sub_8 : Nat → Mem → Addr → Int → Outcome Int Int
  | 0, m, ptr, arg => .pending m ptr arg
  | fuel + 1, m, ptr, arg => __sync_fetch_and_sub_8 fuel m ptr arg

/-- Source function `int64_t __sync_fetch_and_or_8(int64_t *ptr, int64_t arg)`, whose body is
`return __sync_fetch_and_or_8(ptr, arg);`. -/
def __sync_fetch_and_or_8 : Nat → Mem → Addr → Int → Outcome Int Int
  | 0, m, ptr, arg => .pending m ptr arg
  | fuel + 1, m, ptr, arg => __sync_fetch_and_or_8 fuel m ptr arg

/-- Source function `int64_t __sync_fetch_and_and_8(int64_t *ptr, int64_t arg)`, whose body is
`return __sync_fetch_and_and_8(ptr, arg);`. -/
def __sync_fetch_and_and_8 : Nat → Mem → Addr → Int → Outcome Int Int
  | 0, m, ptr, arg => .pending m ptr arg
  | fuel + 1, m, ptr, arg => __sync_fetch_and_and_8 fuel m ptr arg

/-- Source function `int64_t __sync_fetch_and_xor_8(int64_t *ptr, int64_t arg)`, whose body is
`return __sync_fetch_and_xor_8(ptr, arg);`. -/
def __sync_fetch_and_xor_8 : Nat → Mem → Addr → Int → Outcome Int Int
  | 0, m, ptr, arg => .pending m ptr arg
  | fuel + 1, m, ptr, arg => __sync_fetch_and_xor_8 fuel m ptr arg

/-- Source function `int64_t __sync_fetch_and_nand_8(int64_t *ptr, int64_t arg)`, whose body is
`return __sync_fetch_and_nand_8(ptr, arg);`. -/
def __sync_fetch_and_nand_8 : Nat → Mem → Addr → Int → Outcome Int Int
  | 0, m, ptr, arg => .pending m ptr arg
  | fuel + 1, m, ptr, arg => __sync_fetch_and_nand_8 fuel m ptr arg

/-- Source function `int64_t __sync_add_and_fetch_8(int64_t *ptr, int64_t arg)`, whose body is
`return __sync_add_and_fetch_8(ptr, arg);`. -/
def __sync_add_and_fetch_8 : Nat → Mem → Addr → Int → Outcome Int Int
  | 0, m, ptr, arg => .pending m ptr arg
  | fuel + 1, m, ptr, arg => __sync_add_and_fetch_8 fuel m ptr arg

/-- Source function `int64_t __sync_sub_and_fetch_8(int64_t *ptr, int64_t arg)`, whose body is
`return __sync_sub_and_fetch_8(ptr, arg);`. -/
def __sync_sub_and_fetch_8 : Nat → Mem → Addr → Int → Outcome Int Int
  | 0, m, ptr, arg => .pending m ptr arg
  | fuel + 1, m, ptr, arg => __sync_sub_and_fetch_8 fuel m ptr arg

/-- Source function `int64_t __sync_or_and_fetch_8(int64_t *ptr, int64_t arg)`, whose body is
`return __sync_or_and_fetch_8(ptr, arg);`. -/
def __sync_or_and_fetch_8 : Nat → Mem → Addr → Int → Outcome Int Int
  | 0, m, ptr, arg => .pending m ptr arg
  | fuel + 1, m, ptr, arg => __sync_or_and_fetch_8 fuel m ptr arg

/-- Source function `int64_t __sync_and_and_fetch_8(int64_t *ptr, int64_t arg)`, whose body is
`return __sync_and_and_fetch_8(ptr, arg);`. -/
def __sync_and_and_fetch_8 : Nat → Mem → Addr → Int → Outcome Int Int
  | 0, m, ptr, arg => .pending m ptr arg
  | fuel + 1, m, ptr, arg => __sync_and_and_fetch_8 fuel m ptr arg

/-- Source function `int64_t __sync_xor_and_fetch_8(int64_t *ptr, int64_t arg)`, whose body is
`return __sync_xor_and_fetch_8(ptr, arg);`. -/
def __sync_xor_and_fetch_8 : Nat → Mem → Addr → Int → Outcome Int Int
  | 0, m, ptr, arg => .pending m ptr arg
  | fuel + 1, m, ptr, arg => __sync_xor_and_fetch_8 fuel m ptr arg

/-- Source function `int64_t __sync_nand_and_fetch_8(int64_t *ptr, int64_t arg)`, whose body is
`return __sync_nand_and_fetch_8(ptr, arg);`. -/
def __sync_nand_and_fetch_8 : Nat → Mem → Addr → Int → Outcome Int Int
  | 0, m, ptr, arg => .pending m ptr arg
  | fuel + 1, m, ptr, arg => __sync_nand_and_fetch_8 fuel m ptr arg

/-- Source function `int64_t __sync_lock_test_and_set_8(int64_t *ptr, int64_t arg)`, whose body is
`return __sync_lock_test_and_set_8(ptr, arg);`. -/
def __sync_lock_test_and_set_8 : Nat → Mem → Addr → Int → Outcome Int Int
  | 0, m, ptr, arg => .pending m ptr arg
  | fuel + 1, m, ptr, arg => __sync_lock_test_and_set_8 fuel m ptr arg

/-- Source function `int64_t __sync_val_compare_and_swap_8(int64_t *ptr, int64_t old, int64_t new)`, whose body is
`return __sync_val_compare_and_swap_8(ptr, old, new);`. -/
def __sync_val_compare_and_swap_8 : Nat → Mem → Addr → Int → Int → Outcome Int (Int × Int)
  | 0, m, ptr, old, new => .pending m ptr (old, new)
  | fuel + 1, m, ptr, old, new => __sync_val_compare_and_swap_8 fuel m ptr old new

/-- Source function `bool __sync_bool_compare_and_swap_8(int64_t *ptr, int64_t old, int64_t new)`, whose body is
`return __sync_bool_compare_and_swap_8(ptr, old, new);`. -/
def __sync_bool_compare_and_swap_8 : Nat → Mem → Addr → Int → Int → Outcome Bool (Int × Int)
  | 0, m, ptr, old, new => .pending m ptr (old, new)
  | fuel + 1, m, ptr, old, new => __sync_bool_compare_and_swap_8 fuel m ptr old new

/-- Call of the exported function `__sync_<f>_<w>` with pointer `ptr` and the
operands `a` (and `b`, for the compare-and-swap functions; ignored by the
others), run with call depth `fuel` from memory `m`. -/
def invoke : Family → Width → Nat → Mem → Addr → Int → Int → Outcome RetVal (List Int)
  | .fetch_and_add, .w1, fuel, m, ptr, a, _ => Outcome.word (__sync_fetch_and_add_1 fuel m ptr a)
  | .fetch_and_sub, .w1, fuel, m, ptr, a, _ => Outcome.word (__sync_fetch_and_sub_1 fuel m ptr a)
  | .fetch_and_or, .w1, fuel, m, ptr, a, _ => Outcome.word (__sync_fetch_and_or_1 fuel m ptr a)
  | .fetch_and_and, .w1, fuel, m, ptr, a, _ => Outcome.word (__sync_fetch_and_and_1 fuel m ptr a)
  | .fetch_and_xor, .w1, fuel, m, ptr, a, _ => Outcome.word (__sync_fetch_and_xor_1 fuel m ptr a)
  | .fetch_and_nand, .w1, fuel, m, ptr, a, _ => Outcome.word (__sync_fetch_and_nand_1 fuel m ptr a)
  | .add_and_fetch, .w1, fuel, m, ptr, a, _ => Outcome.word (__sync_add_and_fetch_1 fuel m ptr a)
  | .sub_and_fetch, .w1, fuel, m, ptr, a, _ => Outcome.word (__sync_sub_and_fetch_1 fuel m ptr a)
  | .or_and_fetch, .w1, fuel, m, ptr, a, _ => Outcome.word (__sync_or_and_fetch_1 fuel m ptr a)
  | .and_and_fetch, .w1, fuel, m, ptr, a, _ => Outcome.word (__sync_and_and_fetch_1 fuel m ptr a)
  | .xor_and_fetch, .w1, fuel, m, ptr, a, _ => Outcome.word (__sync_xor_and_fetch_1 fuel m ptr a)
  | .nand_and_fetch, .w1, fuel, m, ptr, a, _ => Outcome.word (__sync_nand_and_fetch_1 fuel m ptr a)
  | .lock_test_and_set, .w1, fuel, m, ptr, a, _ => Outcome.word (__sync_lock_test_and_set_1 fuel m ptr a)
  | .val_compare_and_swap, .w1, fuel, m, ptr, a, b => Outcome.word2 (__sync_val_compare_and_swap_1 fuel m ptr a b)
  | .bool_compare_and_swap, .w1, fuel, m, ptr, a, b => Outcome.flag2 (__sync_bool_compare_and_swap_1 fuel m ptr a b)
  | .fetch_and_add, .w2, fuel, m, ptr, a, _ => Outcome.word (__sync_fetch_and_add_2 fuel m ptr a)
  | .fetch_and_sub, .w2, fuel, m, ptr, a, _ => Outcome.word (__sync_fetch_and_sub_2 fuel m ptr a)
  | .fetch_and_or, .w2, fuel, m, ptr, a, _ => Outcome.word (__sync_fetch_and_or_2 fuel m ptr a)
  | .fetch_and_and, .w2, fuel, m, ptr, a, _ => Outcome.word (__sync_fetch_and_and_2 fuel m ptr a)
  | .fetch_and_xor, .w2, fuel, m, ptr, a, _ => Outcome.word (__sync_fetch_and_xor_2 fuel m ptr a)
  | .fetch_and_nand, .w2, fuel, m, ptr, a, _ => Outcome.word (__sync_fetch_and_nand_2 fuel m ptr a)
  | .add_and_fetch, .w2, fuel, m, ptr, a, _ => Outcome.word (__sync_add_and_fetch_2 fuel m ptr a)
  | .sub_and_fetch, .w2, fuel, m, ptr, a, _ => Outcome.word (__sync_sub_and_fetch_2 fuel m ptr a)
  | .or_and_fetch, .w2, fuel, m, ptr, a, _ => Outcome.word (__sync_or_and_fetch_2 fuel m ptr a)
  | .and_and_fetch, .w2, fuel, m, ptr, a, _ => Outcome.word (__sync_and_and_fetch_2 fuel m ptr a)
  | .xor_and_fetch, .w2, fuel, m, ptr, a, _ => Outcome.word (__sync_xor_and_fetch_2 fuel m ptr a)
  | .nand_and_fetch, .w2, fuel, m, ptr, a, _ => Outcome.word (__sync_nand_and_fetch_2 fuel m ptr a)
  | .lock_test_and_set, .w2, fuel, m, ptr, a, _ => Outcome.word (__sync_lock_test_and_set_2 fuel m ptr a)
  | .val_compare_and_swap, .w2, fuel, m, ptr, a, b => Outcome.word2 (__sync_val_compare_and_swap_2 fuel m ptr a b)
  | .bool_compare_and_swap, .w2, fuel, m, ptr, a, b => Outcome.flag2 (__sync_bool_compare_and_swap_2 fuel m ptr a b)
  | .fetch_and_add, .w4, fuel, m, ptr, a, _ => Outcome.word (__sync_fetch_and_add_4 fuel m ptr a)
  | .fetch_and_sub, .w4, fuel, m, ptr, a, _ => Outcome.word (__sync_fetch_and_sub_4 fuel m ptr a)
  | .fetch_and_or, .w4, fuel, m, ptr, a, _ => Outcome.word (__sync_fetch_and_or_4 fuel m ptr a)
  | .fetch_and_and, .w4, fuel, m, ptr, a, _ => Outcome.word (__sync_fetch_and_and_4 fuel m ptr a)
  | .fetch_and_xor, .w4, fuel, m, ptr, a, _ => Outcome.word (__sync_fetch_and_xor_4 fuel m ptr a)
  | .fetch_and_nand, .w4, fuel, m, ptr, a, _ => Outcome.word (__sync_fetch_and_nand_4 fuel m ptr a)
  | .add_and_fetch, .w4, fuel, m, ptr, a, _ => Outcome.word (__sync_add_and_fetch_4 fuel m ptr a)
  | .sub_and_fetch, .w4, fuel, m, ptr, a, _ => Outcome.word (__sync_sub_and_fetch_4 fuel m ptr a)
  | .or_and_fetch, .w4, fuel, m, ptr, a, _ => Outcome.word (__sync_or_and_fetch_4 fuel m ptr a)
  | .and_and_fetch, .w4, fuel, m, ptr, a, _ => Outcome.word (__sync_and_and_fetch_4 fuel m ptr a)
  | .xor_and_fetch, .w4, fuel, m, ptr, a, _ => Outcome.word (__sync_xor_and_fetch_4 fuel m ptr a)
  | .nand_and_fetch, .w4, fuel, m, ptr, a, _ => Outcome.word (__sync_nand_and_fetch_4 fuel m ptr a)
  | .lock_test_and_set, .w4, fuel, m, ptr, a, _ => Outcome.word (__sync_lock_test_and_set_4 fuel m ptr a)
  | .val_compare_and_swap, .w4, fuel, m, ptr, a, b => Outcome.word2 (__sync_val_compare_and_swap_4 fuel m ptr a b)
  | .bool_compare_and_swap, .w4, fuel, m, ptr, a, b => Outcome.flag2 (__sync_bool_compare_and_swap_4 fuel m ptr a b)
  | .fetch_and_add, .w8, fuel, m, ptr, a, _ => Outcome.word (__sync_fetch_and_add_8 fuel m ptr a)
  | .fetch_and_sub, .w8, fuel, m, ptr, a, _ => Outcome.word (__sync_fetch_and_sub_8 fuel m ptr a)
  | .fetch_and_or, .w8, fuel, m, ptr, a, _ => Outcome.word (__sync_fetch_and_or_8 fuel m ptr a)
  | .fetch_and_and, .w8, fuel, m, ptr, a, _ => Outcome.word (__sync_fetch_and_and_8 fuel m ptr a)
  | .fetch_and_xor, .w8, fuel, m, ptr, a, _ => Outcome.word (__sync_fetch_and_xor_8 fuel m ptr a)
  | .fetch_and_nand, .w8, fuel, m, ptr, a, _ => Outcome.word (__sync_fetch_and_nand_8 fuel m ptr a)
  | .add_and_fetch, .w8, fuel, m, ptr, a, _ => Outcome.word (__sync_add_and_fetch_8 fuel m ptr a)
  | .sub_and_fetch, .w8, fuel, m, ptr, a, _ => Outcome.word (__sync_sub_and_fetch_8 fuel m ptr a)
  | .or_and_fetch, .w8, fuel, m, ptr, a, _ => Outcome.word (__sync_or_and_fetch_8 fuel m ptr a)
  | .and_and_fetch, .w8, fuel, m, ptr, a, _ => Outcome.word (__sync_and_and_fetch_8 fuel m ptr a)
  | .xor_and_fetch, .w8, fuel, m, ptr, a, _ => Outcome.word (__sync_xor_and_fetch_8 fuel m ptr a)
  | .nand_and_fetch, .w8, fuel, m, ptr, a, _ => Outcome.word (__sync_nand_and_fetch_8 fuel m ptr a)
  | .lock_test_and_set, .w8, fuel, m, ptr, a, _ => Outcome.word (__sync_lock_test_and_set_8 fuel m ptr a)
  | .val_compare_and_swap, .w8, fuel, m, ptr, a, b => Outcome.word2 (__sync_val_compare_and_swap_8 fuel m ptr a b)
  | .bool_compare_and_swap, .w8, fuel, m, ptr, a, b => Outcome.flag2 (__sync_bool_compare_and_swap_8 fuel m ptr a b)

/-- Memory in which every location holds `v`. -/
def constMem (v : Int) : Mem := fun _ => v

/-! ## Every function stays pending at every call depth -/

theorem __sync_fetch_and_add_1_pending (fuel : Nat) (m : Mem) (ptr : Addr) (arg : Int) :
    __sync_fetch_and_add_1 fuel m ptr arg = .pending m ptr arg := by
  induction fuel with
  | zero => rfl
  | succ n ih => simpa only [__sync_fetch_and_add_1] using ih

theorem __sync_fetch_and_sub_1_pending (fuel : Nat) (m : Mem) (ptr : Addr) (arg : Int) :
    __sync_fetch_and_sub_1 fuel m ptr arg = .pending m ptr arg := by
  induction fuel with
  | zero => rfl
  | succ n ih => simpa only [__sync_fetch_and_sub_1] using ih

theorem __sync_fetch_and_or_1_pending (fuel : Nat) (m : Mem) (ptr : Addr) (arg : Int) :
    __sync_fetch_and_or_1 fuel m ptr arg = .pending m ptr arg := by
  induction fuel with
  | zero => rfl
  | succ n ih => simpa only [__sync_fetch_and_or_1] using ih

theorem __sync_fetch_and_and_1_pending (fuel : Nat) (m : Mem) (ptr : Addr) (arg : Int) :
    __sync_fetch_and_and_1 fuel m ptr arg = .pending m ptr arg := by
  induction fuel with
  | zero => rfl
  | succ n ih => simpa only [__sync_fetch_and_and_1] using ih

theorem __sync_fetch_and_xor_1_pending (fuel : Nat) (m : Mem) (ptr : Addr) (arg : Int) :
    __sync_fetch_and_xor_1 fuel m ptr arg = .pending m ptr arg := by
  induction fuel with
  | zero => rfl
  | succ n ih => simpa only [__sync_fetch_and_xor_1] using ih

theorem __sync_fetch_and_nand_1_pending (fuel : Nat) (m : Mem) (ptr : Addr) (arg : Int) :
    __sync_fetch_and_nand_1 fuel m ptr arg = .pending m ptr arg := by
  induction fuel with
  | zero => rfl
  | succ n ih => simpa only [__sync_fetch_and_nand_1] using ih

theorem __sync_add_and_fetch_1_pending (fuel : Nat) (m : Mem) (ptr : Addr) (arg : Int) :
    __sync_add_and_fetch_1 fuel m ptr arg = .pending m ptr arg := by
  induction fuel with
  | zero => rfl
  | succ n ih => simpa only [__sync_add_and_fetch_1] using ih

theorem __sync_sub_and_fetch_1_pending (fuel : Nat) (m : Mem) (ptr : Addr) (arg : Int) :
    __sync_sub_and_fetch_1 fuel m ptr arg = .pending m ptr arg := by
  induction fuel with
  | zero => rfl
  | succ n ih => simpa only [__sync_sub_and_fetch_1] using ih

theorem __sync_or_and_fetch_1_pending (fuel : Nat) (m : Mem) (ptr : Addr) (arg : Int) :
    __sync_or_and_fetch_1 fuel m ptr arg = .pending m ptr arg := by
  induction fuel with
  | zero => rfl
  | succ n ih => simpa only [__sync_or_and_fetch_1] using ih

theorem __sync_and_and_fetch_1_pending (fuel : Nat) (m : Mem) (ptr : Addr) (arg : Int) :
    __sync_and_and_fetch_1 fuel m ptr arg = .pending m ptr arg := by
  induction fuel with
  | zero => rfl
  | succ n ih => simpa only [__sync_and_and_fetch_1] using ih

theorem __sync_xor_and_fetch_1_pending (fuel : Nat) (m : Mem) (ptr : Addr) (arg : Int) :
    __sync_xor_and_fetch_1 fuel m ptr arg = .pending m ptr arg := by
  induction fuel with
  | zero => rfl
  | succ n ih => simpa only [__sync_xor_and_fetch_1] using ih

theorem __sync_nand_and_fetch_1_pending (fuel : Nat) (m : Mem) (ptr : Addr) (arg : Int) :
    __sync_nand_and_fetch_1 fuel m ptr arg = .pending m ptr arg := by
  induction fuel with
  | zero => rfl
  | succ n ih => simpa only [__sync_nand_and_fetch_1] using ih

theorem __sync_lock_test_and_set_1_pending (fuel : Nat) (m : Mem) (ptr : Addr) (arg : Int) :
    __sync_lock_test_and_set_1 fuel m ptr arg = .pending m ptr arg := by
  induction fuel with
  | zero => rfl
  | succ n ih => simpa only [__sync_lock_test_and_set_1] using ih

theorem __sync_val_compare_and_swap_1_pending (fuel : Nat) (m : Mem) (ptr : Addr) (old new : Int) :
    __sync_val_compare_and_swap_1 fuel m ptr old new = .pending m ptr (old, new) := by
  induction fuel with
  | zero => rfl
  | succ n ih => simpa only [__sync_val_compare_and_swap_1] using ih

theorem __sync_bool_compare_and_swap_1_pending (fuel : Nat) (m : Mem) (ptr : Addr) (old new : Int) :
    __sync_bool_compare_and_swap_1 fuel m ptr old new = .pending m ptr (old, new) := by
  induction fuel with
  | zero => rfl
  | succ n ih => simpa only [__sync_bool_compare_and_swap_1] using ih

theorem __sync_fetch_and_add_2_pending (fuel : Nat) (m : Mem) (ptr : Addr) (arg : Int) :
    __sync_fetch_and_add_2 fuel m ptr arg = .pending m ptr arg := by
  induction fuel with
  | zero => rfl
  | succ n ih => simpa only [__sync_fetch_and_add_2] using ih

theorem __sync_fetch_and_sub_2_pending (fuel : Nat) (m : Mem) (ptr : Addr) (arg : Int) :
    __sync_fetch_and_sub_2 fuel m ptr arg = .pending m ptr arg := by
  induction fuel with
  | zero => rfl
  | succ n ih => simpa only [__sync_fetch_and_sub_2] using ih

theorem __sync_fetch_and_or_2_pending (fuel : Nat) (m : Mem) (ptr : Addr) (arg : Int) :
    __sync_fetch_and_or_2 fuel m ptr arg = .pending m ptr arg := by
  induction fuel with
  | zero => rfl
  | succ n ih => simpa only [__sync_fetch_and_or_2] using ih

theorem __sync_fetch_and_and_2_pending (fuel : Nat) (m : Mem) (ptr : Addr) (arg : Int) :
    __sync_fetch_and_and_2 fuel m ptr arg = .pending m ptr arg := by
  induction fuel with
  | zero => rfl
  | succ n ih => simpa only [__sync_fetch_and_and_2] using ih

theorem __sync_fetch_and_xor_2_pending (fuel : Nat) (m : Mem) (ptr : Addr) (arg : Int) :
    __sync_fetch_and_xor_2 fuel m ptr arg = .pending m ptr arg := by
  induction fuel with
  | zero => rfl
  | succ n ih => simpa only [__sync_fetch_and_xor_2] using ih

theorem __sync_fetch_and_nand_2_pending (fuel : Nat) (m : Mem) (ptr : Addr) (arg : Int) :
    __sync_fetch_and_nand_2 fuel m ptr arg = .pending m ptr arg := by
  induction fuel with
  | zero => rfl
  | succ n ih => simpa only [__sync_fetch_and_nand_2] using ih

theorem __sync_add_and_fetch_2_pending (fuel : Nat) (m : Mem) (ptr : Addr) (arg : Int) :
    __sync_add_and_fetch_2 fuel m ptr arg = .pending m ptr arg := by
  induction fuel with
  | zero => rfl
  | succ n ih => simpa only [__sync_add_and_fetch_2] using ih

theorem __sync_sub_and_fetch_2_pending (fuel : Nat) (m : Mem) (ptr : Addr) (arg : Int) :
    __sync_sub_and_fetch_2 fuel m ptr arg = .pending m ptr arg := by
  induction fuel with
  | zero => rfl
  | succ n ih => simpa only [__sync_sub_and_fetch_2] using ih

theorem __sync_or_and_fetch_2_pending (fuel : Nat) (m : Mem) (ptr : Addr) (arg : Int) :
    __sync_or_and_fetch_2 fuel m ptr arg = .pending m ptr arg := by
  induction fuel with
  | zero => rfl
  | succ n ih => simpa only [__sync_or_and_fetch_2] using ih

theorem __sync_and_and_fetch_2_pending (fuel : Nat) (m : Mem) (ptr : Addr) (arg : Int) :
    __sync_and_and_fetch_2 fuel m ptr arg = .pending m ptr arg := by
  induction fuel with
  | zero => rfl
  | succ n ih => simpa only [__sync_and_and_fetch_2] using ih

theorem __sync_xor_and_fetch_2_pending (fuel : Nat) (m : Mem) (ptr : Addr) (arg : Int) :
    __sync_xor_and_fetch_2 fuel m ptr arg = .pending m ptr arg := by
  induction fuel with
  | zero => rfl
  | succ n ih => simpa only [__sync_xor_and_fetch_2] using ih

theorem __sync_nand_and_fetch_2_pending (fuel : Nat) (m : Mem) (ptr : Addr) (arg : Int) :
    __sync_nand_and_fetch_2 fuel m ptr arg = .pending m ptr arg := by
  induction fuel with
  | zero => rfl
  | succ n ih => simpa only [__sync_nand_and_fetch_2] using ih

theorem __sync_lock_test_and_set_2_pending (fuel : Nat) (m : Mem) (ptr : Addr) (arg : Int) :
    __sync_lock_test_and_set_2 fuel m ptr arg = .pending m ptr arg := by
  induction fuel with
  | zero => rfl
  | succ n ih => simpa only [__sync_lock_test_and_set_2] using ih

theorem __sync_val_compare_and_swap_2_pending (fuel : Nat) (m : Mem) (ptr : Addr) (old new : Int) :
    __sync_val_compare_and_swap_2 fuel m ptr old new = .pending m ptr (old, new) := by
  induction fuel with
  | zero => rfl
  | succ n ih => simpa only [__sync_val_compare_and_swap_2] using ih

theorem __sync_bool_compare_and_swap_2_pending (fuel : Nat) (m : Mem) (ptr : Addr) (old new : Int) :
    __sync_bool_compare_and_swap_2 fuel m ptr old new = .pending m ptr (old, new) := by
  induction fuel with
  | zero => rfl
  | succ n ih => simpa only [__sync_bool_compare_and_swap_2] using ih

theorem __sync_fetch_and_add_4_pending (fuel : Nat) (m : Mem) (ptr : Addr) (arg : Int) :
    __sync_fetch_and_add_4 fuel m ptr arg = .pending m ptr arg := by
  induction fuel with
  | zero => rfl
  | succ n ih => simpa only [__sync_fetch_and_add_4] using ih

theorem __sync_fetch_and_sub_4_pending (fuel : Nat) (m : Mem) (ptr : Addr) (arg : Int) :
    __sync_fetch_and_sub_4 fuel m ptr arg = .pending m ptr arg := by
  induction fuel with
  | zero => rfl
  | succ n ih => simpa only [__sync_fetch_and_sub_4] using ih

theorem __sync_fetch_and_or_4_pending (fuel : Nat) (m : Mem) (ptr : Addr) (arg : Int) :
    __sync_fetch_and_or_4 fuel m ptr arg = .pending m ptr arg := by
  induction fuel with
  | zero => rfl
  | succ n ih => simpa only [__sync_fetch_and_or_4] using ih

theorem __sync_fetch_and_and_4_pending (fuel : Nat) (m : Mem) (ptr : Addr) (arg : Int) :
    __sync_fetch_and_and_4 fuel m ptr arg = .pending m ptr arg := by
  induction fuel with
  | zero => rfl
  | succ n ih => simpa only [__sync_fetch_and_and_4] using ih

theorem __sync_fetch_and_xor_4_pending (fuel : Nat) (m : Mem) (ptr : Addr) (arg : Int) :
    __sync_fetch_and_xor_4 fuel m ptr arg = .pending m ptr arg := by
  induction fuel with
  | zero => rfl
  | succ n ih => simpa only [__sync_fetch_and_xor_4] using ih

theorem __sync_fetch_and_nand_4_pending (fuel : Nat) (m : Mem) (ptr : Addr) (arg : Int) :
    __sync_fetch_and_nand_4 fuel m ptr arg = .pending m ptr arg := by
  induction fuel with
  | zero => rfl
  | succ n ih => simpa only [__sync_fetch_and_nand_4] using ih

theorem __sync_add_and_fetch_4_pending (fuel : Nat) (m : Mem) (ptr : Addr) (arg : Int) :
    __sync_add_and_fetch_4 fuel m ptr arg = .pending m ptr arg := by
  induction fuel with
  | zero => rfl
  | succ n ih => simpa only [__sync_add_and_fetch_4] using ih

theorem __sync_sub_and_fetch_4_pending (fuel : Nat) (m : Mem) (ptr : Addr) (arg : Int) :
    __sync_sub_and_fetch_4 fuel m ptr arg = .pending m ptr arg := by
  induction fuel with
  | zero => rfl
  | succ n ih => simpa only [__sync_sub_and_fetch_4] using ih

theorem __sync_or_and_fetch_4_pending (fuel : Nat) (m : Mem) (ptr : Addr) (arg : Int) :
    __sync_or_and_fetch_4 fuel m ptr arg = .pending m ptr arg := by
  induction fuel with
  | zero => rfl
  | succ n ih => simpa only [__sync_or_and_fetch_4] using ih

theorem __sync_and_and_fetch_4_pending (fuel : Nat) (m : Mem) (ptr : Addr) (arg : Int) :
    __sync_and_and_fetch_4 fuel m ptr arg = .pending m ptr arg := by
  induction fuel with
  | zero => rfl
  | succ n ih => simpa only [__sync_and_and_fetch_4] using ih

theorem __sync_xor_and_fetch_4_pending (fuel : Nat) (m : Mem) (ptr : Addr) (arg : Int) :
    __sync_xor_and_fetch_4 fuel m ptr arg = .pending m ptr arg := by
  induction fuel with
  | zero => rfl
  | succ n ih => simpa only [__sync_xor_and_fetch_4] using ih

theorem __sync_nand_and_fetch_4_pending (fuel : Nat) (m : Mem) (ptr : Addr) (arg : Int) :
    __sync_nand_and_fetch_4 fuel m ptr arg = .pending m ptr arg := by
  induction fuel with
  | zero => rfl
  | succ n ih => simpa only [__sync_nand_and_fetch_4] using ih

theorem __sync_lock_test_and_set_4_pending (fuel : Nat) (m : Mem) (ptr : Addr) (arg : Int) :
    __sync_lock_test_and_set_4 fuel m ptr arg = .pending m ptr arg := by
  induction fuel with
  | zero => rfl
  | succ n ih => simpa only [__sync_lock_test_and_set_4] using ih

theorem __sync_val_compare_and_swap_4_pending (fuel : Nat) (m : Mem) (ptr : Addr) (old new : Int) :
    __sync_val_compare_and_swap_4 fuel m ptr old new = .pending m ptr (old, new) := by
  induction fuel with
  | zero => rfl
  | succ n ih => simpa only [__sync_val_compare_and_swap_4] using ih

theorem __sync_bool_compare_and_swap_4_pending (fuel : Nat) (m : Mem) (ptr : Addr) (old new : Int) :
    __sync_bool_compare_and_swap_4 fuel m ptr old new = .pending m ptr (old, new) := by
  induction fuel with
  | zero => rfl
  | succ n ih => simpa only [__sync_bool_compare_and_swap_4] using ih

theorem __sync_fetch_and_add_8_pending (fuel : Nat) (m : Mem) (ptr : Addr) (arg : Int) :
    __sync_fetch_and_add_8 fuel m ptr arg = .pending m ptr arg := by
  induction fuel with
  | zero => rfl
  | succ n ih => simpa only [__sync_fetch_and_add_8] using ih

theorem __sync_fetch_and_sub_8_pending (fuel : Nat) (m : Mem) (ptr : Addr) (arg : Int) :
    __sync_fetch_and_sub_8 fuel m ptr arg = .pending m ptr arg := by
  induction fuel with
  | zero => rfl
  | succ n ih => simpa only [__sync_fetch_and_sub_8] using ih

theorem __sync_fetch_and_or_8_pending (fuel : Nat) (m : Mem) (ptr : Addr) (arg : Int) :
    __sync_fetch_and_or_8 fuel m ptr arg = .pending m ptr arg := by
  induction fuel with
  | zero => rfl
  | succ n ih => simpa only [__sync_fetch_and_or_8] using ih

theorem __sync_fetch_and_and_8_pending (fuel : Nat) (m : Mem) (ptr : Addr) (arg : Int) :
    __sync_fetch_and_and_8 fuel m ptr arg = .pending m ptr arg := by
  induction fuel with
  | zero => rfl
  | succ n ih => simpa only [__sync_fetch_and_and_8] using ih

theorem __sync_fetch_and_xor_8_pending (fuel : Nat) (m : Mem) (ptr : Addr) (arg : Int) :
    __sync_fetch_and_xor_8 fuel m ptr arg = .pending m ptr arg := by
  induction fuel with
  | zero => rfl
  | succ n ih => simpa only [__sync_fetch_and_xor_8] using ih

theorem __sync_fetch_and_nand_8_pending (fuel : Nat) (m : Mem) (ptr : Addr) (arg : Int) :
    __sync_fetch_and_nand_8 fuel m ptr arg = .pending m ptr arg := by
  induction fuel with
  | zero => rfl
  | succ n ih => simpa only [__sync_fetch_and_nand_8] using ih

theorem __sync_add_and_fetch_8_pending (fuel : Nat) (m : Mem) (ptr : Addr) (arg : Int) :
    __sync_add_and_fetch_8 fuel m ptr arg = .pending m ptr arg := by
  induction fuel with
  | zero => rfl
  | succ n ih => simpa only [__sync_add_and_fetch_8] using ih

theorem __sync_sub_and_fetch_8_pending (fuel : Nat) (m : Mem) (ptr : Addr) (arg : Int) :
    __sync_sub_and_fetch_8 fuel m ptr arg = .pending m ptr arg := by
  induction fuel with
  | zero => rfl
  | succ n ih => simpa only [__sync_sub_and_fetch_8] using ih

theorem __sync_or_and_fetch_8_pending (fuel : Nat) (m : Mem) (ptr : Addr) (arg : Int) :
    __sync_or_and_fetch_8 fuel m ptr arg = .pending m ptr arg := by
  induction fuel with
  | zero => rfl
  | succ n ih => simpa only [__sync_or_and_fetch_8] using ih

theorem __sync_and_and_fetch_8_pending (fuel : Nat) (m : Mem) (ptr : Addr) (arg : Int) :
    __sync_and_and_fetch_8 fuel m ptr arg = .pending m ptr arg := by
  induction fuel with
  | zero => rfl
  | succ n ih => simpa only [__sync_and_and_fetch_8] using ih

theorem __sync_xor_and_fetch_8_pending (fuel : Nat) (m : Mem) (ptr : Addr) (arg : Int) :
    __sync_xor_and_fetch_8 fuel m ptr arg = .pending m ptr arg := by
  induction fuel with
  | zero => rfl
  | succ n ih => simpa only [__sync_xor_and_fetch_8] using ih

theorem __sync_nand_and_fetch_8_pending (fuel : Nat) (m : Mem) (ptr : Addr) (arg : Int) :
    __sync_nand_and_fetch_8 fuel m ptr arg = .pending m ptr arg := by
  induction fuel with
  | zero => rfl
  | succ n ih => simpa only [__sync_nand_and_fetch_8] using ih

theorem __sync_lock_test_and_set_8_pending (fuel : Nat) (m : Mem) (ptr : Addr) (arg : Int) :
    __sync_lock_test_and_set_8 fuel m ptr arg = .pending m ptr arg := by
  induction fuel with
  | zero => rfl
  | succ n ih => simpa only [__sync_lock_test_and_set_8] using ih

theorem __sync_val_compare_and_swap_8_pending (fuel : Nat) (m : Mem) (ptr : Addr) (old new : Int) :
    __sync_val_compare_and_swap_8 fuel m ptr old new = .pending m ptr (old, new) := by
  induction fuel with
  | zero => rfl
  | succ n ih => simpa only [__sync_val_compare_and_swap_8] using ih

theorem __sync_bool_compare_and_swap_8_pending (fuel : Nat) (m : Mem) (ptr : Addr) (old new : Int) :
    __sync_bool_compare_and_swap_8 fuel m ptr old new = .pending m ptr (old, new) := by
  induction fuel with
  | zero => rfl
  | succ n ih => simpa only [__sync_bool_compare_and_swap_8] using ih

/-- At every call depth, whichever of the sixty functions is called, the run
ends with the very call it started with still pending. -/
theorem invoke_pending (f : Family) (w : Width) (fuel : Nat) (m : Mem) (ptr : Addr)
    (a b : Int) : invoke f w fuel m ptr a b = .pending m ptr (f.operands a b) := by
  cases f <;> cases w <;>
    simp only [invoke, Family.operands, Outcome.word, Outcome.word2, Outcome.flag2,
      __sync_fetch_and_add_1_pending, __sync_fetch_and_sub_1_pending,
      __sync_fetch_and_or_1_pending, __sync_fetch_and_and_1_pending,
      __sync_fetch_and_xor_1_pending, __sync_fetch_and_nand_1_pending,
      __sync_add_and_fetch_1_pending, __sync_sub_and_fetch_1_pending,
      __sync_or_and_fetch_1_pending, __sync_and_and_fetch_1_pending,
      __sync_xor_and_fetch_1_pending, __sync_nand_and_fetch_1_pending,
      __sync_lock_test_and_set_1_pending, __sync_val_compare_and_swap_1_pending,
      __sync_bool_compare_and_swap_1_pending,
      __sync_fetch_and_add_2_pending, __sync_fetch_and_sub_2_pending,
      __sync_fetch_and_or_2_pending, __sync_fetch_and_and_2_pending,
      __sync_fetch_and_xor_2_pending, __sync_fetch_and_nand_2_pending,
      __sync_add_and_fetch_2_pending, __sync_sub_and_fetch_2_pending,
      __sync_or_and_fetch_2_pending, __sync_and_and_fetch_2_pending,
      __sync_xor_and_fetch_2_pending, __sync_nand_and_fetch_2_pending,
      __sync_lock_test_and_set_2_pending, __sync_val_compare_and_swap_2_pending,
      __sync_bool_compare_and_swap_2_pending,
      __sync_fetch_and_add_4_pending, __sync_fetch_and_sub_4_pending,
      __sync_fetch_and_or_4_pending, __sync_fetch_and_and_4_pending,
      __sync_fetch_and_xor_4_pending, __sync_fetch_and_nand_4_pending,
      __sync_add_and_fetch_4_pending, __sync_sub_and_fetch_4_pending,
      __sync_or_and_fetch_4_pending, __sync_and_and_fetch_4_pending,
      __sync_xor_and_fetch_4_pending, __sync_nand_and_fetch_4_pending,
      __sync_lock_test_and_set_4_pending, __sync_val_compare_and_swap_4_pending,
      __sync_bool_compare_and_swap_4_pending,
      __sync_fetch_and_add_8_pending, __sync_fetch_and_sub_8_pending,
      __sync_fetch_and_or_8_pending, __sync_fetch_and_and_8_pending,
      __sync_fetch_and_xor_8_pending, __sync_fetch_and_nand_8_pending,
      __sync_add_and_fetch_8_pending, __sync_sub_and_fetch_8_pending,
      __sync_or_and_fetch_8_pending, __sync_and_and_fetch_8_pending,
      __sync_xor_and_fetch_8_pending, __sync_nand_and_fetch_8_pending,
      __sync_lock_test_and_set_8_pending, __sync_val_compare_and_swap_8_pending,
      __sync_bool_compare_and_swap_8_pending]

/-! ## The claims -/

/-- C1, evaluated on the code: with the 32-bit location holding 10,
`__sync_fetch_and_add_4(&loc, 5)` does not come back at any call depth; the
run stays at the original call with the location still holding 10, so it never
returns 10 with the location at 15. -/
theorem fetch_and_add_4_does_not_return (fuel : Nat) :
    __sync_fetch_and_add_4 fuel (constMem 10) 0 5 = .pending (constMem 10) 0 5 ∧
      __sync_fetch_and_add_4 fuel (constMem 10) 0 5
        ≠ .returned 10 (store (constMem 10) 0 15) := by
  rw [__sync_fetch_and_add_4_pending]
  exact ⟨rfl, fun h => Outcome.noConfusion h⟩

/-- C2, evaluated on the code: with the 32-bit location holding 20,
`__sync_val_compare_and_swap_4(&loc, 20, 99)` does not come back at any call
depth; it never returns 20 with the location at 99. -/
theorem val_compare_and_swap_4_does_not_return (fuel : Nat) :
    __sync_val_compare_and_swap_4 fuel (constMem 20) 0 20 99
        = .pending (constMem 20) 0 (20, 99) ∧
      __sync_val_compare_and_swap_4 fuel (constMem 20) 0 20 99
        ≠ .returned 20 (store (constMem 20) 0 99) := by
  rw [__sync_val_compare_and_swap_4_pending]
  exact ⟨rfl, fun h => Outcome.noConfusion h⟩

/-- C3, evaluated on the code: with the location holding 7,
`__sync_bool_compare_and_swap_4(&loc, 7, 9)` and
`__sync_bool_compare_and_swap_8(&loc, 7, 9)` return neither `true` nor `false`
at any call depth; each run stays at the original call. -/
theorem bool_compare_and_swap_does_not_return (fuel : Nat) (r : Bool) (m' : Mem) :
    __sync_bool_compare_and_swap_4 fuel (constMem 7) 0 7 9 ≠ .returned r m' ∧
      __sync_bool_compare_and_swap_8 fuel (constMem 7) 0 7 9 ≠ .returned r m' := by
  rw [__sync_bool_compare_and_swap_4_pending, __sync_bool_compare_and_swap_8_pending]
  exact ⟨fun h => Outcome.noConfusion h, fun h => Outcome.noConfusion h⟩

/-- C4, evaluated on the code: with the 32-bit location holding 15,
`__sync_add_and_fetch_4(&loc, 5)` does not come back at any call depth; it
never returns 20 with the location at 20. -/
theorem add_and_fetch_4_does_not_return (fuel : Nat) :
    __sync_add_and_fetch_4 fuel (constMem 15) 0 5 = .pending (constMem 15) 0 5 ∧
      __sync_add_and_fetch_4 fuel (constMem 15) 0 5
        ≠ .returned 20 (store (constMem 15) 0 20) := by
  rw [__sync_add_and_fetch_4_pending]
  exact ⟨rfl, fun h => Outcome.noConfusion h⟩

/-- C5, evaluated on the code: with the 32-bit location holding 12 and operand
10 (so that `~(12 & 10)` is -9), neither `__sync_fetch_and_nand_4` nor
`__sync_nand_and_fetch_4` comes back at any call depth: the first never returns
12 and the second never returns -9 with the location at -9. -/
theorem nand_4_does_not_return (fuel : Nat) :
    __sync_fetch_and_nand_4 fuel (constMem 12) 0 10
        ≠ .returned 12 (store (constMem 12) 0 (-9)) ∧
      __sync_nand_and_fetch_4 fuel (constMem 12) 0 10
        ≠ .returned (-9) (store (constMem 12) 0 (-9)) := by
  rw [__sync_fetch_and_nand_4_pending, __sync_nand_and_fetch_4_pending]
  exact ⟨fun h => Outcome.noConfusion h, fun h => Outcome.noConfusion h⟩

/-- C6, evaluated on the code: with the 32-bit location holding 0,
`__sync_lock_test_and_set_4(&loc, 1)` does not come back at any call depth; it
never returns 0 with the location at 1. -/
theorem lock_test_and_set_4_does_not_return (fuel : Nat) :
    __sync_lock_test_and_set_4 fuel (constMem 0) 0 1 = .pending (constMem 0) 0 1 ∧
      __sync_lock_test_and_set_4 fuel (constMem 0) 0 1
        ≠ .returned 0 (store (constMem 0) 0 1) := by
  rw [__sync_lock_test_and_set_4_pending]
  exact ⟨rfl, fun h => Outcome.noConfusion h⟩

/-- C7, evaluated on the code: from the same state (32-bit location holding 7,
operand 3) neither `__sync_fetch_and_add_4` nor `__sync_add_and_fetch_4`
produces a returned value or a final memory at any call depth, so there is no
pair of results to relate. -/
theorem fetch_and_add_4_add_and_fetch_4_no_results (fuelA fuelB : Nat) (rA rB : Int)
    (mA mB : Mem) :
    __sync_fetch_and_add_4 fuelA (constMem 7) 0 3 ≠ .returned rA mA ∧
      __sync_add_and_fetch_4 fuelB (constMem 7) 0 3 ≠ .returned rB mB := by
  rw [__sync_fetch_and_add_4_pending, __sync_add_and_fetch_4_pending]
  exact ⟨fun h => Outcome.noConfusion h, fun h => Outcome.noConfusion h⟩

/-- C8, evaluated on the code: with every location holding 0, pointer 0 and
operands 1, none of the sixty functions returns a value at any call depth. -/
theorem no_function_returns_on_zero_memory (f : Family) (w : Width) (fuel : Nat)
    (v : RetVal) (m' : Mem) :
    invoke f w fuel (constMem 0) 0 1 1 ≠ .returned v m' := by
  rw [invoke_pending]
  exact fun h => Outcome.noConfusion h

/-- C10: there are sixty functions (fifteen operations at four widths), and
for every one of them and every memory, pointer and operands: entering the body
once gives the same call again (a call with depth `fuel + 1` is the call with
depth `fuel` on the same memory and arguments); at every call depth the run
ends with that call still pending, on the unchanged memory and with the
unchanged arguments; and no call depth yields a returned value. -/
theorem every_function_is_an_endless_self_call :
    Fintype.card (Family × Width) = 60 ∧
      ∀ (f : Family) (w : Width) (fuel : Nat) (m : Mem) (ptr : Addr) (a b : Int),
        invoke f w (fuel + 1) m ptr a b = invoke f w fuel m ptr a b ∧
          invoke f w fuel m ptr a b = .pending m ptr (f.operands a b) ∧
          ∀ (v : RetVal) (m' : Mem), invoke f w fuel m ptr a b ≠ .returned v m' := by
  refine ⟨rfl, ?_⟩
  intro f w fuel m ptr a b
  refine ⟨?_, invoke_pending f w fuel m ptr a b, ?_⟩
  · cases f <;> cases w <;> rfl
  · intro v m' h
    rw [invoke_pending] at h
    exact Outcome.noConfusion h

end Atomics
